import Mathlib

/-!
Verification development for the weekly coach feedback reporting job
(src/main.py).

The program is a linear batch pipeline: load configuration from the
process environment, run one parameterized warehouse query
(FEEDBACK_QUERY), group the returned rows by coach name, render one HTML
report per coach, email it, and exit with a status reflecting per-coach
failures.

Embedding conventions:
* Timestamps and dates are modelled as integers counting days since an
  epoch Monday, so that DATE_TRUNC to the week boundary is subtraction of
  the value modulo 7, and DATEADD of w weeks adds 7 * w days.
* SQL NULL is modelled with Option.
* The per_submission CTE of FEEDBACK_QUERY (lines 83-119 of main.py)
  pivots raw answer arrays into one record per submission; the embedding
  starts from that record (Submission below) and models the final CTE,
  the join against the coach directory, the WHERE filter and the ORDER BY
  (lines 121-155) explicitly.
* The Python dict keyed by coach name (fetch_feedback, lines 175-187) is
  modelled as an association list in insertion order, which is exactly
  the iteration order of a Python dict.
-/

/-- SQL LOWER on a text value, as its character sequence. -/
def lowerChars (s : String) : List Char := s.data.map Char.toLower

/-- Occurrence of pat as a contiguous substring of a character list. -/
def containsChars (pat : List Char) : List Char → Bool
  | [] => pat.isEmpty
  | c :: rest => pat.isPrefixOf (c :: rest) || containsChars pat rest

/-- Case-insensitive test that the text starts with Yes: the SQL
condition consent_raw ILIKE the pattern Yes-percent. -/
def ilikeStartsYes (s : String) : Bool :=
  List.isPrefixOf "yes".data (lowerChars s)

/-- Case-insensitive substring test for anonym: the SQL condition
LOWER(consent_raw) LIKE the pattern percent-anonym-percent. -/
def containsAnonym (s : String) : Bool :=
  containsChars "anonym".data (lowerChars s)

/-- One record of the per_submission CTE: the pivoted answers of a
single form submission. created_at is in days since an epoch Monday. -/
structure Submission where
  submission_id : Nat
  created_at : Int
  customer_name : Option String := none
  coach_name : Option String := none
  member_name : Option String := none
  comments : Option String := none
  consent_raw : Option String := none
  testimonial_consent_raw : Option String := none
  rating : Option Int := none
deriving DecidableEq

/-- DATE_TRUNC to the WEEK boundary: the latest Monday not after d,
with days counted from an epoch Monday. -/
def weekStart (d : Int) : Int := d - d % 7

/-- consent_to_share (line 128): IFF(consent_raw ILIKE Yes-percent,
TRUE, FALSE); a NULL consent answer yields FALSE. -/
def consentToShare : Option String → Bool
  | none => false
  | some s => ilikeStartsYes s

/-- share_anonymized (lines 129-133): TRUE when consent starts with Yes
and mentions anonym, FALSE when it starts with Yes without that token,
NULL otherwise (including NULL consent). -/
def shareAnonymized : Option String → Option Bool
  | none => none
  | some s =>
    if ilikeStartsYes s && containsAnonym s then some true
    else if ilikeStartsYes s then some false
    else none

/-- member_name in the final CTE (lines 134-137): suppressed (NULL) when
consent starts with Yes and mentions anonym, otherwise passed through. -/
def finalMemberName (consent member : Option String) : Option String :=
  match consent with
  | none => member
  | some s => if ilikeStartsYes s && containsAnonym s then none else member

/-- One row of the final CTE (lines 121-143). -/
structure FinalRow where
  submission_id : Nat
  created_at : Int
  week_start : Int
  customer_name : Option String
  coach_name : Option String
  consent_to_share : Bool
  share_anonymized : Option Bool
  member_name : Option String
  rating : Option Int
  comments : Option String
  consent_raw : Option String
  testimonial_consent_raw : Option String
deriving DecidableEq

/-- The final CTE SELECT, row by row. -/
def finalRow (s : Submission) : FinalRow :=
  { submission_id := s.submission_id
    created_at := s.created_at
    week_start := weekStart s.created_at
    customer_name := s.customer_name
    coach_name := s.coach_name
    consent_to_share := consentToShare s.consent_raw
    share_anonymized := shareAnonymized s.consent_raw
    member_name := finalMemberName s.consent_raw s.member_name
    rating := s.rating
    comments := s.comments
    consent_raw := s.consent_raw
    testimonial_consent_raw := s.testimonial_consent_raw }

/-- One row of the coach directory DIM__COACHES. -/
structure CoachDirEntry where
  coach_name : String
  coach_email : String
deriving DecidableEq

/-- One row of the outer SELECT (lines 144-154): all final columns plus
the joined coach_email. -/
structure OutRow where
  submission_id : Nat
  created_at : Int
  week_start : Int
  customer_name : Option String
  coach_name : Option String
  consent_to_share : Bool
  share_anonymized : Option Bool
  member_name : Option String
  rating : Option Int
  comments : Option String
  consent_raw : Option String
  testimonial_consent_raw : Option String
  coach_email : String
deriving DecidableEq

/-- Attach a directory row to a final row. -/
def mkOut (f : FinalRow) (d : CoachDirEntry) : OutRow :=
  { submission_id := f.submission_id
    created_at := f.created_at
    week_start := f.week_start
    customer_name := f.customer_name
    coach_name := f.coach_name
    consent_to_share := f.consent_to_share
    share_anonymized := f.share_anonymized
    member_name := f.member_name
    rating := f.rating
    comments := f.comments
    consent_raw := f.consent_raw
    testimonial_consent_raw := f.testimonial_consent_raw
    coach_email := d.coach_email }

/-- Inner join of one final row against the coach directory: the ON
condition f.coach_name = d.coach_name, with SQL NULL never equal. -/
def joinDir (dir : List CoachDirEntry) (f : FinalRow) : List OutRow :=
  dir.filterMap fun d =>
    if f.coach_name = some d.coach_name then some (mkOut f d) else none

/-- The coach_filter predicate (line 153): the parameter IS NULL, or the
lower-cased names match; a NULL coach name never matches a set filter. -/
def coachFilterMatch : Option String → Option String → Bool
  | none, _ => true
  | some _, none => false
  | some c, some n => decide (lowerChars n = lowerChars c)

/-- The WHERE clause of the outer SELECT (lines 150-153), with target
the week boundary selected by week_offset. -/
def rowFilter (target : Int) (cf : Option String) (r : OutRow) : Bool :=
  r.consent_to_share && r.coach_name.isSome &&
    decide (r.week_start = target) && coachFilterMatch cf r.coach_name

/-- ORDER BY created_at DESC (line 154). -/
def createdDesc (a b : OutRow) : Prop := b.created_at ≤ a.created_at

instance : DecidableRel createdDesc := fun a b =>
  inferInstanceAs (Decidable (b.created_at ≤ a.created_at))

instance : IsTotal OutRow createdDesc :=
  ⟨fun a b => Int.le_total b.created_at a.created_at⟩

instance : IsTrans OutRow createdDesc :=
  ⟨fun _ _ _ hab hbc => le_trans hbc hab⟩

/-- FEEDBACK_QUERY as executed with parameters week_offset and
coach_filter on a warehouse snapshot (submissions plus coach directory)
at the given current date: final CTE, inner join, WHERE, ORDER BY. -/
def feedbackQuery (subs : List Submission) (dir : List CoachDirEntry)
    (currentDate : Int) (week_offset : Int) (coach_filter : Option String) :
    List OutRow :=
  let target := weekStart (currentDate + 7 * week_offset)
  let joined := (subs.map finalRow).flatMap (joinDir dir)
  List.insertionSort createdDesc (joined.filter (rowFilter target coach_filter))

/-- The per-coach aggregation unit built by fetch_feedback
(lines 179-184). -/
structure CoachReport where
  coach_name : Option String
  coach_email : String
  week_start : Int
  rows : List OutRow
deriving DecidableEq

/-- Insert one query row into the coach dictionary (lines 176-185): if
the coach key is present, append the row to its list, otherwise add a
new entry at the end holding just this row. -/
def addRow : List (Option String × CoachReport) → OutRow →
    List (Option String × CoachReport)
  | [], r =>
    [(r.coach_name,
      { coach_name := r.coach_name, coach_email := r.coach_email,
        week_start := r.week_start, rows := [r] })]
  | p :: rest, r =>
    if p.1 = r.coach_name then
      (p.1, { p.2 with rows := p.2.rows ++ [r] }) :: rest
    else
      p :: addRow rest r

/-- Client-side grouping of the query output by coach name, in first
occurrence order, as a Python dict iterated in insertion order. -/
def groupByCoach (rows : List OutRow) : List (Option String × CoachReport) :=
  rows.foldl addRow []

/-- fetch_feedback (lines 158-187): run FEEDBACK_QUERY and group the
rows by coach name. -/
def fetchFeedback (subs : List Submission) (dir : List CoachDirEntry)
    (currentDate : Int) (week_offset : Int) (coach_filter : Option String) :
    List (Option String × CoachReport) :=
  groupByCoach (feedbackQuery subs dir currentDate week_offset coach_filter)

/-!
Report rendering (render_report, lines 193-214). The Jinja template and
the strftime date formatter are external collaborators; the embedding
captures the variable assignment handed to the template, with the two
date labels produced by an abstract day-number rendering.
-/

/-- Round the fraction a over d (with d positive) to the nearest
integer, ties to the even neighbour: the semantics of the Python
builtin round on these values. f is the floor, since division and
remainder on integers are Euclidean and d is positive; the fractional
part compares to one half by comparing twice the remainder to d. -/
def roundHalfEvenFrac (a d : ℤ) : ℤ :=
  let f := a / d
  let r2 := 2 * (a % d)
  if r2 < d then f
  else if d < r2 then f + 1
  else if f % 2 = 0 then f else f + 1

/-- Python round(x, 1) on a rational: round ten times the value to an
integer, ties to even, then divide by ten. -/
def roundTo1 (q : ℚ) : ℚ := mkRat (roundHalfEvenFrac (10 * q.num) (q.den : ℤ)) 10

/-- Stand-in for strftime with the long month format on a day number. -/
def formatLongDate (d : Int) : String := toString d

/-- Stand-in for strftime with the short month format on a day number. -/
def weekLabelShort (d : Int) : String := toString d

/-- The variable assignment render_report hands to the template
(lines 204-214); generated_at, read from the wall clock, is outside the
embedding. -/
structure Rendered where
  coach_name : Option String
  week_start_label : String
  total_responses : Nat
  avg_rating : Option ℚ
  max_rating : Nat
  feedback_rows : List OutRow
deriving DecidableEq

/-- render_report (lines 193-214): collect the non-null ratings, average
and round them when any exist, and populate the template variables. -/
def renderReport (cd : CoachReport) : Rendered :=
  let rows := cd.rows
  let ratings := rows.filterMap OutRow.rating
  let avg : Option ℚ :=
    if ratings.isEmpty then none
    else some (roundTo1 (mkRat ratings.sum ratings.length))
  { coach_name := cd.coach_name
    week_start_label := formatLongDate cd.week_start
    total_responses := rows.length
    avg_rating := avg
    max_rating := 5
    feedback_rows := rows }

/-!
Configuration loading (lines 36-56). The process environment is a
partial map from variable names to strings; a required variable that is
absent or empty aborts the run before anything else happens, because
the checks run at module import time.
-/

/-- Python truthiness of an optional environment value: None and the
empty string are falsy. -/
def falsyStr : Option String → Bool
  | none => true
  | some s => s.isEmpty

/-- The _require_env helper (lines 36-41): produce the value, or the
name of the missing setting when the value is absent or empty. -/
def requireEnv (env : String → Option String) (name : String) :
    Except String String :=
  match env name with
  | none => Except.error name
  | some v => if v.isEmpty then Except.error name else Except.ok v

/-- The settings read at lines 44-56. SMTP_PORT is kept as its raw
text; the int conversion is outside the claims. -/
structure Config where
  snowflake_account : String
  snowflake_user : String
  snowflake_database : String
  snowflake_warehouse : String
  snowflake_role : String
  snowflake_private_key_pem : String
  smtp_server : String
  smtp_port_raw : String
  smtp_user : String
  smtp_pass : String
  email_from : String
  email_from_name : String
deriving DecidableEq

/-- The module-level configuration block (lines 44-56), evaluated top to
bottom; the first missing required setting aborts with its name. -/
def loadConfig (env : String → Option String) : Except String Config := do
  let account ← requireEnv env "SNOWFLAKE_ACCOUNT"
  let user ← requireEnv env "SNOWFLAKE_USER"
  let database := (env "SNOWFLAKE_DATABASE").getD "ANALYTICS_DEV"
  let warehouse := (env "SNOWFLAKE_WAREHOUSE").getD "COMPUTE_WH"
  let role := (env "SNOWFLAKE_ROLE").getD ""
  let pem ← requireEnv env "SNOWFLAKE_PRIVATE_KEY_PEM"
  let server := (env "SMTP_SERVER").getD "smtp.gmail.com"
  let portRaw := (env "SMTP_PORT").getD "587"
  let smtpUser ← requireEnv env "SMTP_USER"
  let smtpPass ← requireEnv env "SMTP_PASS"
  let emailFrom := (env "EMAIL_FROM").getD ""
  let emailFromName := (env "EMAIL_FROM_NAME").getD "Coaching Team"
  Except.ok
    { snowflake_account := account
      snowflake_user := user
      snowflake_database := database
      snowflake_warehouse := warehouse
      snowflake_role := role
      snowflake_private_key_pem := pem
      smtp_server := server
      smtp_port_raw := portRaw
      smtp_user := smtpUser
      smtp_pass := smtpPass
      email_from := emailFrom
      email_from_name := emailFromName }

/-- The required settings, in the order the module reads them. -/
def requiredNames : List String :=
  ["SNOWFLAKE_ACCOUNT", "SNOWFLAKE_USER", "SNOWFLAKE_PRIVATE_KEY_PEM",
   "SMTP_USER", "SMTP_PASS"]

/-!
Entrypoint (lines 247-322). Command-line arguments come from argparse;
send_email either delivers the composed message or raises, which the
orchestrator loop catches per coach. Exceptions while rendering or
sending a given coach are modelled by a predicate on the coach key.
-/

/-- The argparse surface (lines 247-264). -/
structure Args where
  test : Bool
  coach : Option String
  toAddr : Option String
deriving DecidableEq

/-- One composed email, with the rendered template variables in place
of the final HTML text. -/
structure Email where
  to_email : Option String
  to_name : Option String
  subject : String
  body : Rendered
deriving DecidableEq

/-- The observable outcome of a run: process exit status, the emails
handed to the SMTP transport, the recorded failures, the query
parameters sent to the warehouse, and the relevant log lines. -/
structure RunResult where
  exitCode : Nat
  emails : List Email
  failedCoaches : List (Option String)
  queryCalls : List (Int × Option String)
  noFeedbackLogged : Bool
  errorLog : List String
deriving DecidableEq

/-- The email composed for one coach entry (lines 296-313): subject from
the week label, test marker and recipient override in test mode. -/
def emailFor (args : Args) (p : Option String × CoachReport) : Email :=
  let subject0 :=
    "Your Weekly Feedback Summary — Week of " ++ weekLabelShort p.2.week_start
  { to_email := if args.test then args.toAddr else some p.2.coach_email
    to_name := if args.test then args.toAddr else p.1
    subject := if args.test then "[TEST] " ++ subject0 else subject0
    body := renderReport p.2 }

/-- One iteration of the orchestrator loop (lines 294-316): on an
exception the coach key joins the failure list, otherwise the composed
email is dispatched. -/
def coachStep (args : Args) (fails : Option String → Bool)
    (acc : List Email × List (Option String))
    (p : Option String × CoachReport) :
    List Email × List (Option String) :=
  if fails p.1 then (acc.1, acc.2 ++ [p.1])
  else (acc.1 ++ [emailFor args p], acc.2)

/-- The body guarded by the main check (lines 267-322), after the
module-level configuration has loaded: argument validation, mode
selection, fetch, the per-coach loop, and the exit status. -/
def mainBody (args : Args) (subs : List Submission)
    (dir : List CoachDirEntry) (today : Int)
    (fails : Option String → Bool) : RunResult :=
  if args.test && (falsyStr args.coach || falsyStr args.toAddr) then
    { exitCode := 1, emails := [], failedCoaches := [], queryCalls := []
      noFeedbackLogged := false
      errorLog := ["--test requires both --coach and --to."] }
  else
    let week_offset : Int := if args.test then 0 else -1
    let coach_filter := if args.test then args.coach else none
    let coaches := fetchFeedback subs dir today week_offset coach_filter
    if coaches.isEmpty then
      { exitCode := 0, emails := [], failedCoaches := []
        queryCalls := [(week_offset, coach_filter)]
        noFeedbackLogged := true, errorLog := [] }
    else
      let sent := coaches.foldl (coachStep args fails) ([], [])
      if sent.2.isEmpty then
        { exitCode := 0, emails := sent.1, failedCoaches := []
          queryCalls := [(week_offset, coach_filter)]
          noFeedbackLogged := false, errorLog := [] }
      else
        { exitCode := 1, emails := sent.1, failedCoaches := sent.2
          queryCalls := [(week_offset, coach_filter)]
          noFeedbackLogged := false
          errorLog := ["Finished with errors"] }

/-- The whole process: module import loads the configuration and aborts
on the first missing required setting, naming it; otherwise the main
body runs. -/
def runProcess (env : String → Option String) (args : Args)
    (subs : List Submission) (dir : List CoachDirEntry) (today : Int)
    (fails : Option String → Bool) : RunResult :=
  match loadConfig env with
  | Except.error name =>
    { exitCode := 1, emails := [], failedCoaches := [], queryCalls := []
      noFeedbackLogged := false
      errorLog := ["Required environment variable " ++ name ++ " is not set."] }
  | Except.ok _ => mainBody args subs dir today fails

/-!
Sample warehouse snapshot used to evaluate the development on concrete
inputs: three submissions for one coach (consenting, consenting
anonymously, not consenting) and one consenting submission for a second
coach, all created in the week starting at day 0.
-/

/-- Consenting submission with a rating of 4. -/
def sampleYes : Submission :=
  { submission_id := 1, created_at := 1, coach_name := some "Jane Smith",
    customer_name := some "Acme", member_name := some "Bob Member",
    comments := some "great", consent_raw := some "Yes", rating := some 4 }

/-- Submission consenting anonymously, with a rating of 5. -/
def sampleAnon : Submission :=
  { submission_id := 2, created_at := 0, coach_name := some "Jane Smith",
    member_name := some "Amy Member",
    consent_raw := some "Yes, but anonymously", rating := some 5 }

/-- Non-consenting submission. -/
def sampleNo : Submission :=
  { submission_id := 3, created_at := 2, coach_name := some "Jane Smith",
    member_name := some "Cal Member", consent_raw := some "No",
    rating := some 2 }

/-- Consenting submission for the second coach, with no rating. -/
def sampleOther : Submission :=
  { submission_id := 4, created_at := 3, coach_name := some "Bob Lee",
    member_name := some "Dee Member", consent_raw := some "YES please" }

def sampleSubs : List Submission :=
  [sampleYes, sampleAnon, sampleNo, sampleOther]

def sampleDir : List CoachDirEntry :=
  [{ coach_name := "Jane Smith", coach_email := "jane@example.com" },
   { coach_name := "Bob Lee", coach_email := "bob@example.com" }]

/-- Fallback report used when reading a position out of range. -/
def emptyReport : CoachReport :=
  { coach_name := none, coach_email := "", week_start := 0, rows := [] }

/-- Fallback row used when reading a position out of range. -/
def blankRow : OutRow :=
  { submission_id := 0, created_at := 0, week_start := 0,
    customer_name := none, coach_name := none, consent_to_share := false,
    share_anonymized := none, member_name := none, rating := none,
    comments := none, consent_raw := none, testimonial_consent_raw := none,
    coach_email := "" }

/-- Production-mode fetch over the sample snapshot, run on day 7 with
the default week offset of minus one: the sample week is last week. -/
def fetchProd : List (Option String × CoachReport) :=
  fetchFeedback sampleSubs sampleDir 7 (-1) none

/-- First grouped coach entry of the production-mode sample fetch. -/
def pFirst : Option String × CoachReport := fetchProd.headD (none, emptyReport)

/-- Second grouped coach entry of the production-mode sample fetch. -/
def pSecond : Option String × CoachReport := fetchProd.getD 1 (none, emptyReport)

/-- First row of the first sample coach entry. -/
def rFirst : OutRow := pFirst.2.rows.headD blankRow

/-- Second row of the second sample coach entry: the anonymized one. -/
def rAnon : OutRow := pSecond.2.rows.getD 1 blankRow

/-- Environment with one required variable missing entirely. -/
def envMissingPass : String → Option String :=
  fun n => if n = "SMTP_PASS" then none else some "value"

/-- Environment with one required variable set to the empty string. -/
def envEmptyUser : String → Option String :=
  fun n => if n = "SNOWFLAKE_USER" then some "" else some "value"

/-- Failure pattern that throws exactly for the second sample coach. -/
def failsJane : Option String → Bool := fun k => decide (k = some "Jane Smith")

/-- Production-mode arguments. -/
def argsProd : Args := { test := false, coach := none, toAddr := none }

/-- Test-mode arguments of the test scenario. -/
def argsTest : Args :=
  { test := true, coach := some "Jane Smith", toAddr := some "test@example.com" }

/-!
Helper lemmas: the query output seen through membership, the grouping
seen through per-key row lists, and the orchestrator loop seen as a
partition of the coach list.
-/

/-- Lookup of the row list stored under a key in the coach dictionary. -/
def entryRows : List (Option String × CoachReport) → Option String → List OutRow
  | [], _ => []
  | p :: rest, k => if p.1 = k then p.2.rows else entryRows rest k

theorem entryRows_addRow (acc : List (Option String × CoachReport))
    (r : OutRow) (k : Option String) :
    entryRows (addRow acc r) k =
      entryRows acc k ++ (if r.coach_name = k then [r] else []) := by
  induction acc with
  | nil =>
    by_cases h : r.coach_name = k <;> simp [addRow, entryRows, h]
  | cons p rest ih =>
    by_cases hpr : p.1 = r.coach_name
    · have ha : addRow (p :: rest) r =
          (p.1, { p.2 with rows := p.2.rows ++ [r] }) :: rest := by
        simp [addRow, hpr]
      rw [ha]
      by_cases hpk : p.1 = k
      · have hrk : r.coach_name = k := hpr.symm.trans hpk
        simp [entryRows, hpk, hrk]
      · have hrk : ¬ r.coach_name = k := fun h => hpk (hpr.trans h)
        simp [entryRows, hpk, hrk]
    · have ha : addRow (p :: rest) r = p :: addRow rest r := by
        simp [addRow, hpr]
      rw [ha]
      by_cases hpk : p.1 = k
      · have hrk : ¬ r.coach_name = k := fun h => hpr (hpk.trans h.symm)
        simp [entryRows, hpk, hrk]
      · simp [entryRows, hpk, ih]

theorem entryRows_foldl (l : List OutRow)
    (acc : List (Option String × CoachReport)) (k : Option String) :
    entryRows (l.foldl addRow acc) k =
      entryRows acc k ++ l.filter (fun r => decide (r.coach_name = k)) := by
  induction l generalizing acc with
  | nil => simp
  | cons r l ih =>
    rw [List.foldl_cons, ih, entryRows_addRow, List.filter_cons]
    by_cases h : r.coach_name = k <;> simp [h]

theorem keys_addRow (acc : List (Option String × CoachReport)) (r : OutRow) :
    (addRow acc r).map Prod.fst = acc.map Prod.fst ∨
      (addRow acc r).map Prod.fst = acc.map Prod.fst ++ [r.coach_name] := by
  induction acc with
  | nil => right; simp [addRow]
  | cons p rest ih =>
    by_cases hpr : p.1 = r.coach_name
    · left; simp [addRow, hpr]
    · rcases ih with h | h
      · left; simp [addRow, hpr, h]
      · right; simp [addRow, hpr, h]

theorem nodup_keys_addRow (acc : List (Option String × CoachReport))
    (r : OutRow) (h : (acc.map Prod.fst).Nodup) :
    ((addRow acc r).map Prod.fst).Nodup := by
  induction acc with
  | nil => simp [addRow]
  | cons p rest ih =>
    by_cases hpr : p.1 = r.coach_name
    · have ha : addRow (p :: rest) r =
          (p.1, { p.2 with rows := p.2.rows ++ [r] }) :: rest := by
        simp [addRow, hpr]
      rw [ha]
      simpa using h
    · have ha : addRow (p :: rest) r = p :: addRow rest r := by
        simp [addRow, hpr]
      rw [ha]
      rw [List.map_cons, List.nodup_cons] at h ⊢
      refine ⟨?_, ih h.2⟩
      rcases keys_addRow rest r with hk | hk
      · rw [hk]; exact h.1
      · rw [hk, List.mem_append]
        rintro (hmem | hmem)
        · exact h.1 hmem
        · simp only [List.mem_singleton] at hmem
          exact hpr hmem

theorem nodup_keys_groupByCoach (rows : List OutRow) :
    ((groupByCoach rows).map Prod.fst).Nodup := by
  have hgen : ∀ (l : List OutRow) (acc : List (Option String × CoachReport)),
      (acc.map Prod.fst).Nodup → ((l.foldl addRow acc).map Prod.fst).Nodup := by
    intro l
    induction l with
    | nil => intro acc h; simpa using h
    | cons r l ih =>
      intro acc h
      exact ih (addRow acc r) (nodup_keys_addRow acc r h)
  exact hgen rows [] (by simp)

theorem entryRows_of_mem (acc : List (Option String × CoachReport))
    (p : Option String × CoachReport)
    (hnd : (acc.map Prod.fst).Nodup) (hp : p ∈ acc) :
    entryRows acc p.1 = p.2.rows := by
  induction acc with
  | nil => cases hp
  | cons q rest ih =>
    rw [List.map_cons, List.nodup_cons] at hnd
    rcases List.mem_cons.mp hp with rfl | hp
    · simp [entryRows]
    · have hq : ¬ q.1 = p.1 := by
        intro he
        exact hnd.1 (he ▸ List.mem_map_of_mem Prod.fst hp)
      simp [entryRows, hq, ih hnd.2 hp]

theorem rows_of_mem_groupByCoach (rows : List OutRow)
    (p : Option String × CoachReport) (hp : p ∈ groupByCoach rows) :
    p.2.rows = rows.filter (fun r => decide (r.coach_name = p.1)) := by
  have h1 := entryRows_of_mem _ p (nodup_keys_groupByCoach rows) hp
  have h2 := entryRows_foldl rows [] p.1
  rw [groupByCoach] at h1
  rw [h1] at h2
  simpa [entryRows] using h2

theorem mem_joinDir {r : OutRow} {dir : List CoachDirEntry} {f : FinalRow} :
    r ∈ joinDir dir f ↔
      ∃ d ∈ dir, f.coach_name = some d.coach_name ∧ r = mkOut f d := by
  unfold joinDir
  rw [List.mem_filterMap]
  constructor
  · rintro ⟨d, hd, h⟩
    by_cases hc : f.coach_name = some d.coach_name
    · rw [if_pos hc] at h
      exact ⟨d, hd, hc, (Option.some_injective _ h).symm⟩
    · rw [if_neg hc] at h
      cases h
  · rintro ⟨d, hd, hc, rfl⟩
    exact ⟨d, hd, by rw [if_pos hc]⟩

theorem mem_feedbackQuery {r : OutRow} {subs : List Submission}
    {dir : List CoachDirEntry} {today wo : Int} {cf : Option String} :
    r ∈ feedbackQuery subs dir today wo cf ↔
      (∃ s ∈ subs, ∃ d ∈ dir,
        (finalRow s).coach_name = some d.coach_name ∧ r = mkOut (finalRow s) d) ∧
      rowFilter (weekStart (today + 7 * wo)) cf r = true := by
  unfold feedbackQuery
  rw [(List.perm_insertionSort _ _).mem_iff, List.mem_filter]
  constructor
  · rintro ⟨hmem, hf⟩
    refine ⟨?_, hf⟩
    rw [List.mem_flatMap] at hmem
    obtain ⟨f, hfmem, hr⟩ := hmem
    rw [List.mem_map] at hfmem
    obtain ⟨s, hs, rfl⟩ := hfmem
    obtain ⟨d, hd, hc, rfl⟩ := mem_joinDir.mp hr
    exact ⟨s, hs, d, hd, hc, rfl⟩
  · rintro ⟨⟨s, hs, d, hd, hc, rfl⟩, hf⟩
    refine ⟨?_, hf⟩
    rw [List.mem_flatMap]
    exact ⟨finalRow s, List.mem_map_of_mem finalRow hs,
      mem_joinDir.mpr ⟨d, hd, hc, rfl⟩⟩

theorem pairwise_feedbackQuery (subs : List Submission)
    (dir : List CoachDirEntry) (today wo : Int) (cf : Option String) :
    (feedbackQuery subs dir today wo cf).Pairwise createdDesc :=
  List.sorted_insertionSort createdDesc _

/-- Everything the WHERE clause and the final CTE guarantee about one
row of the query output. -/
theorem feedbackQuery_spec {r : OutRow} {subs : List Submission}
    {dir : List CoachDirEntry} {today wo : Int} {cf : Option String}
    (h : r ∈ feedbackQuery subs dir today wo cf) :
    r.consent_to_share = true ∧
    (∃ t, r.consent_raw = some t ∧ ilikeStartsYes t = true) ∧
    (∀ t, r.consent_raw = some t → containsAnonym t = true →
      r.member_name = none) ∧
    r.week_start = weekStart (today + 7 * wo) ∧
    coachFilterMatch cf r.coach_name = true := by
  obtain ⟨⟨s, _, d, _, _, rfl⟩, hf⟩ := mem_feedbackQuery.mp h
  unfold rowFilter at hf
  rw [Bool.and_eq_true, Bool.and_eq_true, Bool.and_eq_true] at hf
  obtain ⟨⟨⟨hcons, _⟩, hweek⟩, hcf⟩ := hf
  have hcons' : consentToShare s.consent_raw = true := hcons
  refine ⟨hcons, ?_, ?_, of_decide_eq_true hweek, hcf⟩
  · cases hc : s.consent_raw with
    | none => rw [hc] at hcons'; exact absurd hcons' (by simp [consentToShare])
    | some t =>
      rw [hc] at hcons'
      exact ⟨t, hc, hcons'⟩
  · intro t ht hanon
    have ht' : s.consent_raw = some t := ht
    have hyes : ilikeStartsYes t = true := by
      rw [ht'] at hcons'; exact hcons'
    show finalMemberName s.consent_raw s.member_name = none
    rw [ht']
    simp [finalMemberName, hyes, hanon]

theorem requireEnv_error_name (env : String → Option String) (n m : String)
    (h : requireEnv env n = Except.error m) :
    m = n ∧ falsyStr (env n) = true := by
  unfold requireEnv at h
  split at h
  · rename_i he
    cases h
    rw [he]
    exact ⟨rfl, rfl⟩
  · rename_i v he
    split at h
    · rename_i hv
      cases h
      rw [he]
      exact ⟨rfl, by simpa [falsyStr] using hv⟩
    · cases h

theorem requireEnv_ok_falsy (env : String → Option String) (n : String)
    (v : String) (h : requireEnv env n = Except.ok v) :
    falsyStr (env n) = false := by
  unfold requireEnv at h
  split at h
  · cases h
  · rename_i w he
    split at h
    · cases h
    · rename_i hw
      rw [he]
      simpa [falsyStr] using hw

theorem requireEnv_error_of_falsy (env : String → Option String) (n : String)
    (h : falsyStr (env n) = true) : requireEnv env n = Except.error n := by
  unfold requireEnv
  cases he : env n with
  | none => rfl
  | some v =>
    rw [he] at h
    simp only [falsyStr] at h
    simp [h]

theorem loadConfig_error_spec (env : String → Option String) (m : String)
    (h : loadConfig env = Except.error m) :
    m ∈ requiredNames ∧ falsyStr (env m) = true := by
  unfold loadConfig at h
  simp only [bind, Except.bind] at h
  cases h1 : requireEnv env "SNOWFLAKE_ACCOUNT" with
  | error e =>
    rw [h1] at h
    cases h
    obtain ⟨rfl, hf⟩ := requireEnv_error_name env _ _ h1
    exact ⟨by simp [requiredNames], hf⟩
  | ok v1 =>
    rw [h1] at h
    cases h2 : requireEnv env "SNOWFLAKE_USER" with
    | error e =>
      rw [h2] at h
      cases h
      obtain ⟨rfl, hf⟩ := requireEnv_error_name env _ _ h2
      exact ⟨by simp [requiredNames], hf⟩
    | ok v2 =>
      rw [h2] at h
      cases h3 : requireEnv env "SNOWFLAKE_PRIVATE_KEY_PEM" with
      | error e =>
        rw [h3] at h
        cases h
        obtain ⟨rfl, hf⟩ := requireEnv_error_name env _ _ h3
        exact ⟨by simp [requiredNames], hf⟩
      | ok v3 =>
        rw [h3] at h
        cases h4 : requireEnv env "SMTP_USER" with
        | error e =>
          rw [h4] at h
          cases h
          obtain ⟨rfl, hf⟩ := requireEnv_error_name env _ _ h4
          exact ⟨by simp [requiredNames], hf⟩
        | ok v4 =>
          rw [h4] at h
          cases h5 : requireEnv env "SMTP_PASS" with
          | error e =>
            rw [h5] at h
            cases h
            obtain ⟨rfl, hf⟩ := requireEnv_error_name env _ _ h5
            exact ⟨by simp [requiredNames], hf⟩
          | ok v5 =>
            rw [h5] at h
            cases h

theorem loadConfig_ok_spec (env : String → Option String) (c : Config)
    (h : loadConfig env = Except.ok c) :
    ∀ n ∈ requiredNames, falsyStr (env n) = false := by
  unfold loadConfig at h
  simp only [bind, Except.bind] at h
  cases h1 : requireEnv env "SNOWFLAKE_ACCOUNT" with
  | error e => rw [h1] at h; cases h
  | ok v1 =>
    rw [h1] at h
    cases h2 : requireEnv env "SNOWFLAKE_USER" with
    | error e => rw [h2] at h; cases h
    | ok v2 =>
      rw [h2] at h
      cases h3 : requireEnv env "SNOWFLAKE_PRIVATE_KEY_PEM" with
      | error e => rw [h3] at h; cases h
      | ok v3 =>
        rw [h3] at h
        cases h4 : requireEnv env "SMTP_USER" with
        | error e => rw [h4] at h; cases h
        | ok v4 =>
          rw [h4] at h
          cases h5 : requireEnv env "SMTP_PASS" with
          | error e => rw [h5] at h; cases h
          | ok v5 =>
            intro n hn
            simp only [requiredNames, List.mem_cons, List.mem_singleton,
              List.not_mem_nil, or_false] at hn
            rcases hn with rfl | rfl | rfl | rfl | rfl
            · exact requireEnv_ok_falsy env _ _ h1
            · exact requireEnv_ok_falsy env _ _ h2
            · exact requireEnv_ok_falsy env _ _ h3
            · exact requireEnv_ok_falsy env _ _ h4
            · exact requireEnv_ok_falsy env _ _ h5

theorem foldl_coachStep (args : Args) (fails : Option String → Bool)
    (l : List (Option String × CoachReport))
    (acc : List Email × List (Option String)) :
    l.foldl (coachStep args fails) acc =
      (acc.1 ++ (l.filter (fun p => !fails p.1)).map (emailFor args),
       acc.2 ++ (l.filter (fun p => fails p.1)).map Prod.fst) := by
  induction l generalizing acc with
  | nil => simp
  | cons p l ih =>
    rw [List.foldl_cons, ih, List.filter_cons, List.filter_cons]
    by_cases h : fails p.1 <;> simp [coachStep, h]

/-!
The claims.
-/

/-- C1: every row of the mapping returned by fetch_feedback carries a
consent answer starting with Yes (case-insensitively), and whenever the
consent answer does not start with Yes the derived consent_to_share
field is false, so such a row is excluded from the output. -/
theorem fetchFeedback_consent_only
    (subs : List Submission) (dir : List CoachDirEntry) (today wo : Int)
    (cf : Option String) (p : Option String × CoachReport) (r : OutRow)
    (c : Option String)
    (hp : p ∈ fetchFeedback subs dir today wo cf) (hr : r ∈ p.2.rows)
    (hc : ∀ t, c = some t → ilikeStartsYes t = false) :
    consentToShare c = false ∧ r.consent_to_share = true ∧
    ∃ t, r.consent_raw = some t ∧ ilikeStartsYes t = true := by
  have hrows := rows_of_mem_groupByCoach _ p hp
  rw [hrows, List.mem_filter] at hr
  obtain ⟨h1, h2, _⟩ := feedbackQuery_spec hr.1
  refine ⟨?_, h1, h2⟩
  cases c with
  | none => rfl
  | some t => simpa [consentToShare] using hc t rfl

/-- C2: a row of the fetch_feedback output whose consent answer starts
with Yes and mentions anonym has its member_name suppressed to null. -/
theorem fetchFeedback_anonymized_member_none
    (subs : List Submission) (dir : List CoachDirEntry) (today wo : Int)
    (cf : Option String) (p : Option String × CoachReport) (r : OutRow)
    (t : String)
    (hp : p ∈ fetchFeedback subs dir today wo cf) (hr : r ∈ p.2.rows)
    (ht : r.consent_raw = some t) (hyes : ilikeStartsYes t = true)
    (hanon : containsAnonym t = true) :
    r.member_name = none := by
  have hrows := rows_of_mem_groupByCoach _ p hp
  rw [hrows, List.mem_filter] at hr
  obtain ⟨_, _, h3, _⟩ := feedbackQuery_spec hr.1
  exact h3 t ht hanon

/-- C3: the avg_rating handed to the template is the arithmetic mean of
the non-null ratings of the rows, rounded to one decimal, when at least
one rating is present, and is absent when no rating is present. -/
theorem renderReport_avg_rating_mean (cd : CoachReport) :
    ((cd.rows.filterMap OutRow.rating).isEmpty = false →
      (renderReport cd).avg_rating =
        some (roundTo1 (mkRat (cd.rows.filterMap OutRow.rating).sum
          (cd.rows.filterMap OutRow.rating).length))) ∧
    ((cd.rows.filterMap OutRow.rating).isEmpty = true →
      (renderReport cd).avg_rating = none) := by
  constructor
  · intro h
    simp [renderReport, h]
  · intro h
    simp [renderReport, h]

/-- C4: once the orchestrator loop runs over a non-empty coach mapping,
a failing coach is recorded in the failure list while the other coaches
still get their emails, and the process exits 1 exactly when the
failure list is non-empty, logging it. -/
theorem mainBody_per_coach_failures
    (args : Args) (subs : List Submission) (dir : List CoachDirEntry)
    (today : Int) (fails : Option String → Bool)
    (husage : (args.test && (falsyStr args.coach || falsyStr args.toAddr))
      = false)
    (hne : fetchFeedback subs dir today (if args.test then 0 else -1)
      (if args.test then args.coach else none) ≠ []) :
    (mainBody args subs dir today fails).emails =
      ((fetchFeedback subs dir today (if args.test then 0 else -1)
        (if args.test then args.coach else none)).filter
        (fun p => !fails p.1)).map (emailFor args) ∧
    (mainBody args subs dir today fails).failedCoaches =
      ((fetchFeedback subs dir today (if args.test then 0 else -1)
        (if args.test then args.coach else none)).filter
        (fun p => fails p.1)).map Prod.fst ∧
    (mainBody args subs dir today fails).exitCode =
      (if (mainBody args subs dir today fails).failedCoaches = []
        then 0 else 1) := by
  unfold mainBody
  rw [husage]
  simp only [Bool.false_eq_true, if_false]
  have hie : (fetchFeedback subs dir today (if args.test then 0 else -1)
      (if args.test then args.coach else none)).isEmpty = false := by
    cases hf : fetchFeedback subs dir today (if args.test then 0 else -1)
        (if args.test then args.coach else none) with
    | nil => exact absurd hf hne
    | cons a l => rfl
  rw [hie]
  simp only [Bool.false_eq_true, if_false, foldl_coachStep, List.nil_append]
  by_cases he : ((fetchFeedback subs dir today (if args.test then 0 else -1)
      (if args.test then args.coach else none)).filter
      (fun p => fails p.1)).map Prod.fst = []
  · rw [he]
    simp
  · have he' : (((fetchFeedback subs dir today (if args.test then 0 else -1)
        (if args.test then args.coach else none)).filter
        (fun p => fails p.1)).map Prod.fst).isEmpty = false := by
      cases hf : ((fetchFeedback subs dir today (if args.test then 0 else -1)
          (if args.test then args.coach else none)).filter
          (fun p => fails p.1)).map Prod.fst with
      | nil => exact absurd hf he
      | cons a l => rfl
    rw [he']
    simp [he]

/-- C5: with the test flag, a coach name and an override address, the
run queries week offset 0 filtered to that coach, every email goes to
the override address with the subject prefixed by the test marker, and
every fetched row belongs to the named coach up to case. -/
theorem mainBody_test_mode
    (c addr : String) (subs : List Submission) (dir : List CoachDirEntry)
    (today : Int) (fails : Option String → Bool)
    (hc : c.isEmpty = false) (haddr : addr.isEmpty = false) :
    (mainBody { test := true, coach := some c, toAddr := some addr }
      subs dir today fails).queryCalls = [(0, some c)] ∧
    (∀ e ∈ (mainBody { test := true, coach := some c, toAddr := some addr }
        subs dir today fails).emails,
      e.to_email = some addr ∧ e.to_name = some addr ∧
      ∃ rest, e.subject = "[TEST] " ++ rest) ∧
    (∀ p ∈ fetchFeedback subs dir today 0 (some c), ∀ r ∈ p.2.rows,
      ∃ n, r.coach_name = some n ∧ lowerChars n = lowerChars c) := by
  refine ⟨?_, ?_, ?_⟩
  · unfold mainBody
    simp only [falsyStr, hc, haddr, Bool.or_self, Bool.and_false,
      Bool.false_eq_true, if_false, if_true]
    by_cases hf : (fetchFeedback subs dir today 0 (some c)).isEmpty
    · rw [hf]
      simp
    · rw [Bool.not_eq_true] at hf
      rw [hf]
      simp only [Bool.false_eq_true, if_false]
      by_cases he : ((fetchFeedback subs dir today 0 (some c)).foldl
          (coachStep { test := true, coach := some c, toAddr := some addr }
            fails) ([], [])).2.isEmpty
      · rw [he]
        rfl
      · rw [Bool.not_eq_true] at he
        rw [he]
        rfl
  · intro e he
    unfold mainBody at he
    simp only [falsyStr, hc, haddr, Bool.or_self, Bool.and_false,
      Bool.false_eq_true, if_false, if_true] at he
    by_cases hf : (fetchFeedback subs dir today 0 (some c)).isEmpty
    · rw [hf] at he
      simp at he
    · rw [Bool.not_eq_true] at hf
      rw [hf] at he
      simp only [Bool.false_eq_true, if_false, foldl_coachStep,
        List.nil_append] at he
      have hemail : e ∈ ((fetchFeedback subs dir today 0 (some c)).filter
          (fun p => !fails p.1)).map
          (emailFor { test := true, coach := some c, toAddr := some addr }) := by
        by_cases hee : (((fetchFeedback subs dir today 0 (some c)).filter
            (fun p => fails p.1)).map Prod.fst).isEmpty
        · rw [hee] at he
          exact he
        · rw [Bool.not_eq_true] at hee
          rw [hee] at he
          exact he
      rw [List.mem_map] at hemail
      obtain ⟨p, _, rfl⟩ := hemail
      exact ⟨rfl, rfl, _, rfl⟩
  · intro p hp r hr
    have hrows := rows_of_mem_groupByCoach _ p hp
    rw [hrows, List.mem_filter] at hr
    obtain ⟨_, _, _, _, hcf⟩ := feedbackQuery_spec hr.1
    cases hn : r.coach_name with
    | none => rw [hn] at hcf; cases hcf
    | some n =>
      rw [hn] at hcf
      exact ⟨n, rfl, of_decide_eq_true hcf⟩

/-- C6: when a required environment variable is absent, the process
logs the missing setting by name and exits with status 1 before any
warehouse query or email attempt. -/
theorem runProcess_missing_env_exits
    (env : String → Option String) (args : Args) (subs : List Submission)
    (dir : List CoachDirEntry) (today : Int) (fails : Option String → Bool)
    (n : String) (hn : n ∈ requiredNames) (habs : env n = none) :
    (runProcess env args subs dir today fails).exitCode = 1 ∧
    (runProcess env args subs dir today fails).queryCalls = [] ∧
    (runProcess env args subs dir today fails).emails = [] ∧
    ∃ m ∈ requiredNames, falsyStr (env m) = true ∧
      (runProcess env args subs dir today fails).errorLog =
        ["Required environment variable " ++ m ++ " is not set."] := by
  have hfal : falsyStr (env n) = true := by rw [habs]; rfl
  cases hl : loadConfig env with
  | ok cfg =>
    have hok := loadConfig_ok_spec env cfg hl n hn
    rw [hfal] at hok
    cases hok
  | error m =>
    obtain ⟨hm, hmf⟩ := loadConfig_error_spec env m hl
    unfold runProcess
    rw [hl]
    exact ⟨rfl, rfl, rfl, m, hm, hmf, rfl⟩

/-- C7: a run reaching the fetch that returns an empty mapping sends no
emails, logs that no feedback was found, and exits 0. -/
theorem mainBody_empty_no_emails
    (args : Args) (subs : List Submission) (dir : List CoachDirEntry)
    (today : Int) (fails : Option String → Bool)
    (husage : (args.test && (falsyStr args.coach || falsyStr args.toAddr))
      = false)
    (hempty : fetchFeedback subs dir today (if args.test then 0 else -1)
      (if args.test then args.coach else none) = []) :
    (mainBody args subs dir today fails).emails = [] ∧
    (mainBody args subs dir today fails).exitCode = 0 ∧
    (mainBody args subs dir today fails).noFeedbackLogged = true := by
  unfold mainBody
  rw [husage]
  simp only [Bool.false_eq_true, if_false]
  rw [hempty]
  exact ⟨rfl, rfl, rfl⟩

/-- C8: each report of the fetch_feedback mapping holds exactly the
query rows of its key coach in warehouse result order, every row names
the key coach and the selected week start, and the rows are sorted by
descending creation time. -/
theorem fetchFeedback_group_invariants
    (subs : List Submission) (dir : List CoachDirEntry) (today wo : Int)
    (cf : Option String) (p : Option String × CoachReport)
    (hp : p ∈ fetchFeedback subs dir today wo cf) :
    p.2.rows = (feedbackQuery subs dir today wo cf).filter
      (fun r => decide (r.coach_name = p.1)) ∧
    (∀ r ∈ p.2.rows, r.coach_name = p.1 ∧
      r.week_start = weekStart (today + 7 * wo)) ∧
    p.2.rows.Pairwise createdDesc := by
  have hrows := rows_of_mem_groupByCoach _ p hp
  refine ⟨hrows, ?_, ?_⟩
  · intro r hr
    rw [hrows, List.mem_filter] at hr
    obtain ⟨_, _, _, hweek, _⟩ := feedbackQuery_spec hr.1
    exact ⟨of_decide_eq_true hr.2, hweek⟩
  · rw [hrows]
    exact List.Pairwise.sublist (List.filter_sublist _)
      (pairwise_feedbackQuery subs dir today wo cf)

/-- C9: two fetches with the same week offset and coach filter whose
query outputs coincide produce identical coach mappings. -/
theorem fetchFeedback_idempotent
    (subs1 subs2 : List Submission) (dir1 dir2 : List CoachDirEntry)
    (t1 t2 wo1 wo2 : Int) (cf1 cf2 : Option String)
    (hwo : wo1 = wo2) (hcf : cf1 = cf2)
    (hq : feedbackQuery subs1 dir1 t1 wo1 cf1 =
      feedbackQuery subs2 dir2 t2 wo2 cf2) :
    fetchFeedback subs1 dir1 t1 wo1 cf1 =
      fetchFeedback subs2 dir2 t2 wo2 cf2 := by
  unfold fetchFeedback
  rw [hq]

/-- C10: a required environment variable set to the empty string is
treated exactly like an absent one: _require_env rejects it just as it
rejects a missing value, and the process exits 1 with no query and no
email, so configuration loading never succeeds with an empty required
setting. -/
theorem requireEnv_empty_as_absent
    (env : String → Option String) (args : Args) (subs : List Submission)
    (dir : List CoachDirEntry) (today : Int) (fails : Option String → Bool)
    (n : String) (hn : n ∈ requiredNames) (hempty : env n = some "") :
    requireEnv env n = Except.error n ∧
    requireEnv (fun _ => none) n = Except.error n ∧
    (∀ cfg, loadConfig env ≠ Except.ok cfg) ∧
    (runProcess env args subs dir today fails).exitCode = 1 ∧
    (runProcess env args subs dir today fails).queryCalls = [] ∧
    (runProcess env args subs dir today fails).emails = [] := by
  have hfal : falsyStr (env n) = true := by rw [hempty]; rfl
  have hnotok : ∀ cfg, loadConfig env ≠ Except.ok cfg := by
    intro cfg hl
    have hok := loadConfig_ok_spec env cfg hl n hn
    rw [hfal] at hok
    cases hok
  refine ⟨requireEnv_error_of_falsy env n hfal,
    requireEnv_error_of_falsy _ n rfl, hnotok, ?_⟩
  cases hl : loadConfig env with
  | ok cfg => exact absurd hl (hnotok cfg)
  | error m =>
    unfold runProcess
    rw [hl]
    exact ⟨rfl, rfl, rfl⟩

/-!
Witnesses: each claim theorem applied to the sample snapshot, with its
hypotheses discharged on concrete data.
-/

/-- C1 witness: in the production-mode sample fetch, the first coach
entry's first row is consented, and a No answer yields a false flag. -/
theorem fetchFeedback_consent_only_witness :
    pFirst ∈ fetchFeedback sampleSubs sampleDir 7 (-1) none ∧
    rFirst ∈ pFirst.2.rows ∧
    (consentToShare (some "No") = false ∧ rFirst.consent_to_share = true ∧
      ∃ t, rFirst.consent_raw = some t ∧ ilikeStartsYes t = true) :=
  ⟨by decide, by decide,
    fetchFeedback_consent_only sampleSubs sampleDir 7 (-1) none pFirst rFirst
      (some "No") (by decide) (by decide)
      (by intro t ht; injection ht with h; subst h; decide)⟩

/-- C2 witness: the anonymously consenting sample row has its member
name suppressed in the fetched mapping. -/
theorem fetchFeedback_anonymized_member_none_witness :
    pSecond ∈ fetchFeedback sampleSubs sampleDir 7 (-1) none ∧
    rAnon ∈ pSecond.2.rows ∧
    rAnon.consent_raw = some "Yes, but anonymously" ∧
    rAnon.member_name = none :=
  ⟨by decide, by decide, by decide,
    fetchFeedback_anonymized_member_none sampleSubs sampleDir 7 (-1) none
      pSecond rAnon "Yes, but anonymously" (by decide) (by decide) (by decide)
      (by decide) (by decide)⟩

/-- C3 witness: the sample coach report with ratings 4 and 5 renders an
average of nine halves. -/
theorem renderReport_avg_rating_mean_witness :
    (pSecond.2.rows.filterMap OutRow.rating).isEmpty = false ∧
    (renderReport pSecond.2).avg_rating =
      some (roundTo1 (mkRat (pSecond.2.rows.filterMap OutRow.rating).sum
        (pSecond.2.rows.filterMap OutRow.rating).length)) ∧
    (renderReport pSecond.2).avg_rating = some (mkRat 9 2) :=
  ⟨by decide, (renderReport_avg_rating_mean pSecond.2).1 (by decide),
    by decide⟩

/-- C4 witness: with two sample coaches and dispatch failing exactly
for the second grouped coach, the first coach's email is still sent,
the failure list holds exactly the second coach, and the exit is 1. -/
theorem mainBody_per_coach_failures_witness :
    (argsProd.test && (falsyStr argsProd.coach || falsyStr argsProd.toAddr))
      = false ∧
    fetchFeedback sampleSubs sampleDir 7 (-1) none ≠ [] ∧
    ((mainBody argsProd sampleSubs sampleDir 7 failsJane).emails =
      ((fetchFeedback sampleSubs sampleDir 7
        (if argsProd.test then 0 else -1)
        (if argsProd.test then argsProd.coach else none)).filter
        (fun p => !failsJane p.1)).map (emailFor argsProd) ∧
    (mainBody argsProd sampleSubs sampleDir 7 failsJane).failedCoaches =
      ((fetchFeedback sampleSubs sampleDir 7
        (if argsProd.test then 0 else -1)
        (if argsProd.test then argsProd.coach else none)).filter
        (fun p => failsJane p.1)).map Prod.fst ∧
    (mainBody argsProd sampleSubs sampleDir 7 failsJane).exitCode =
      (if (mainBody argsProd sampleSubs sampleDir 7 failsJane).failedCoaches
        = [] then 0 else 1)) ∧
    (mainBody argsProd sampleSubs sampleDir 7 failsJane).emails.map
      Email.to_email = [some "bob@example.com"] ∧
    (mainBody argsProd sampleSubs sampleDir 7 failsJane).failedCoaches =
      [some "Jane Smith"] ∧
    (mainBody argsProd sampleSubs sampleDir 7 failsJane).exitCode = 1 :=
  ⟨by decide, by decide,
    mainBody_per_coach_failures argsProd sampleSubs sampleDir 7 failsJane
      (by decide) (by decide),
    by decide, by decide, by decide⟩

/-- C5 witness: the test-mode scenario for the named coach with two
consented current-week submissions rated 4 and 5 sends exactly one
email to the override address, with the test marker on the subject,
two responses and an average of nine halves in the body. -/
theorem mainBody_test_mode_witness :
    "Jane Smith".isEmpty = false ∧ "test@example.com".isEmpty = false ∧
    ((mainBody argsTest sampleSubs sampleDir 0
        (fun _ => false)).queryCalls = [(0, some "Jane Smith")] ∧
    (∀ e ∈ (mainBody argsTest sampleSubs sampleDir 0
        (fun _ => false)).emails,
      e.to_email = some "test@example.com" ∧
      e.to_name = some "test@example.com" ∧
      ∃ rest, e.subject = "[TEST] " ++ rest) ∧
    (∀ p ∈ fetchFeedback sampleSubs sampleDir 0 0 (some "Jane Smith"),
      ∀ r ∈ p.2.rows, ∃ n, r.coach_name = some n ∧
        lowerChars n = lowerChars "Jane Smith")) ∧
    (mainBody argsTest sampleSubs sampleDir 0 (fun _ => false)).emails.map
      Email.to_email = [some "test@example.com"] ∧
    (mainBody argsTest sampleSubs sampleDir 0 (fun _ => false)).emails.map
      Email.subject = ["[TEST] Your Weekly Feedback Summary — Week of 0"] ∧
    (mainBody argsTest sampleSubs sampleDir 0 (fun _ => false)).emails.map
      (fun e => e.body.total_responses) = [2] ∧
    (mainBody argsTest sampleSubs sampleDir 0 (fun _ => false)).emails.map
      (fun e => e.body.avg_rating) = [some (mkRat 9 2)] :=
  ⟨by decide, by decide,
    mainBody_test_mode "Jane Smith" "test@example.com" sampleSubs sampleDir 0
      (fun _ => false) (by decide) (by decide),
    by decide, by decide, by decide, by decide⟩

/-- C6 witness: with the SMTP password missing from the environment,
the process exits 1 with no query and no email, logging the name. -/
theorem runProcess_missing_env_exits_witness :
    "SMTP_PASS" ∈ requiredNames ∧ envMissingPass "SMTP_PASS" = none ∧
    ((runProcess envMissingPass argsProd [] [] 0
        (fun _ => false)).exitCode = 1 ∧
    (runProcess envMissingPass argsProd [] [] 0
        (fun _ => false)).queryCalls = [] ∧
    (runProcess envMissingPass argsProd [] [] 0
        (fun _ => false)).emails = [] ∧
    ∃ m ∈ requiredNames, falsyStr (envMissingPass m) = true ∧
      (runProcess envMissingPass argsProd [] [] 0
        (fun _ => false)).errorLog =
        ["Required environment variable " ++ m ++ " is not set."]) :=
  ⟨by decide, by decide,
    runProcess_missing_env_exits envMissingPass argsProd [] [] 0
      (fun _ => false) "SMTP_PASS" (by decide) (by decide)⟩

/-- C7 witness: on an empty warehouse snapshot the production run sends
nothing, logs the no-feedback line and exits 0. -/
theorem mainBody_empty_no_emails_witness :
    (argsProd.test && (falsyStr argsProd.coach || falsyStr argsProd.toAddr))
      = false ∧
    fetchFeedback [] [] 0 (if argsProd.test then 0 else -1)
      (if argsProd.test then argsProd.coach else none) = [] ∧
    ((mainBody argsProd [] [] 0 (fun _ => false)).emails = [] ∧
    (mainBody argsProd [] [] 0 (fun _ => false)).exitCode = 0 ∧
    (mainBody argsProd [] [] 0 (fun _ => false)).noFeedbackLogged = true) :=
  ⟨by decide, by decide,
    mainBody_empty_no_emails argsProd [] [] 0 (fun _ => false)
      (by decide) (by decide)⟩

/-- C8 witness: the second sample coach entry holds exactly that
coach's query rows, all in the selected week, sorted by descending
creation time. -/
theorem fetchFeedback_group_invariants_witness :
    pSecond ∈ fetchFeedback sampleSubs sampleDir 7 (-1) none ∧
    (pSecond.2.rows = (feedbackQuery sampleSubs sampleDir 7 (-1) none).filter
      (fun r => decide (r.coach_name = pSecond.1)) ∧
    (∀ r ∈ pSecond.2.rows, r.coach_name = pSecond.1 ∧
      r.week_start = weekStart (7 + 7 * -1)) ∧
    pSecond.2.rows.Pairwise createdDesc) :=
  ⟨by decide,
    fetchFeedback_group_invariants sampleSubs sampleDir 7 (-1) none pSecond
      (by decide)⟩

/-- C9 witness: re-running the sample fetch with identical parameters
and data yields the identical mapping. -/
theorem fetchFeedback_idempotent_witness :
    feedbackQuery sampleSubs sampleDir 7 (-1) none =
      feedbackQuery sampleSubs sampleDir 7 (-1) none ∧
    fetchFeedback sampleSubs sampleDir 7 (-1) none =
      fetchFeedback sampleSubs sampleDir 7 (-1) none :=
  ⟨rfl, fetchFeedback_idempotent sampleSubs sampleSubs sampleDir sampleDir
    7 7 (-1) (-1) none none rfl rfl rfl⟩

/-- C10 witness: a required variable set to the empty string is
rejected like an absent one and the run exits 1 before any query. -/
theorem requireEnv_empty_as_absent_witness :
    "SNOWFLAKE_USER" ∈ requiredNames ∧
    envEmptyUser "SNOWFLAKE_USER" = some "" ∧
    (requireEnv envEmptyUser "SNOWFLAKE_USER" =
      Except.error "SNOWFLAKE_USER" ∧
    requireEnv (fun _ => none) "SNOWFLAKE_USER" =
      Except.error "SNOWFLAKE_USER" ∧
    (∀ cfg, loadConfig envEmptyUser ≠ Except.ok cfg) ∧
    (runProcess envEmptyUser argsProd [] [] 0
      (fun _ => false)).exitCode = 1 ∧
    (runProcess envEmptyUser argsProd [] [] 0
      (fun _ => false)).queryCalls = [] ∧
    (runProcess envEmptyUser argsProd [] [] 0
      (fun _ => false)).emails = []) :=
  ⟨by decide, by decide,
    requireEnv_empty_as_absent envEmptyUser argsProd [] [] 0
      (fun _ => false) "SNOWFLAKE_USER" (by decide) (by decide)⟩
